import Mathlib

/-!
Shallow embedding of `src/clusterd_tester.py`: a test-harness client that
replays a directory of XMLNews files to a clusterd server over a socket.

The socket, the file system and the clock are modelled as an explicit
environment supplied to each operation: each outcome the outside world can
produce (connect succeeding or raising a socket-level error, a receive
yielding text or raising, a sendall succeeding or raising, the wall-clock
duration of a transfer) is a field of the environment.  Each embedded
operation returns the trace of externally visible events it performs
(socket calls, log lines, stderr prints) together with either a normal
result or the Python exception that propagates out of it.
-/

/-- The exceptions that can propagate through the program.  The first three
are the classes defined at the top of `clusterd_tester.py`
(`ConnectionError`, `NoAcknowledgmentError`, `ServerResponseError`); the
module-level `ConnectionError` shadows the Python builtin of the same name.
`socketError` stands for an OS-level `socket.error` / `OSError` raised by a
socket primitive, `attributeError` for an `AttributeError` (e.g. calling a
method on `None`), and `assertionError` for a failed `assert`. -/
inductive PyError where
  | connectionErr (msg : String)
  | noAcknowledgment (msg : String)
  | serverResponse (msg : String)
  | socketError (msg : String)
  | attributeError (msg : String)
  | assertionError (msg : String)
deriving DecidableEq, Repr

/-- `str(e)` of an exception: its message. -/
def PyError.text : PyError → String
  | .connectionErr m => m
  | .noAcknowledgment m => m
  | .serverResponse m => m
  | .socketError m => m
  | .attributeError m => m
  | .assertionError m => m

/-- Externally visible events: socket operations, log lines and stderr
prints, in the order the program performs them. -/
inductive Event where
  | settimeout (seconds : Nat)
  | connect (ip : String) (port : Nat)
  | sendall (data : List Nat)
  | recv (maxBytes : Nat)
  | close
  | logInfo (msg : String)
  | logError (msg : String)
  | printErr (msg : String)
deriving DecidableEq, Repr

/-- Outcome of a blocking `recv`: decoded text, or a socket-level error. -/
inductive RecvOutcome where
  | text (s : String)
  | fail (msg : String)
deriving DecidableEq, Repr

/-- Outcome of a blocking `sendall`: success, or a socket-level error. -/
inductive SendOutcome where
  | ok
  | fail (msg : String)
deriving DecidableEq, Repr

/-- Environment for one file of the replay loop: the path and raw bytes of
the file, the wall-clock duration of the attempt, and the transport
outcomes of the `sendall` and the `recv` for this file. -/
structure FileEnv where
  path : String
  contents : List Nat
  duration : Rat
  sendResult : SendOutcome
  recvResult : RecvOutcome
deriving DecidableEq, Repr

/-- Environment for the initial handshake: whether the `socket()` /
`connect()` calls raise a socket-level error (`some msg`) or succeed
(`none`), and what the first `recv` yields. -/
structure HandshakeEnv where
  connectError : Option String
  bannerRecv : RecvOutcome
deriving DecidableEq, Repr

/-- Environment for a whole run: the handshake outcomes and the discovered
`.xml` files in enumeration order, each with its transport outcomes. -/
structure RunEnv where
  handshake : HandshakeEnv
  files : List FileEnv
deriving DecidableEq, Repr

/-- The state of a `ClusterDTester` instance: the constructor arguments,
the two response prefixes set by `__init__`, and the `self.sock` field
(`none` models Python `None`; the socket object itself carries no data we
track beyond its presence). -/
structure ClusterDTester where
  server_ip : String
  server_port : Nat
  mode : String
  init_response : String
  successPrefix : String
  errorPrefix : String
  sock : Option Unit
deriving DecidableEq, Repr

/-- `ClusterDTester.__init__` (lines 23-47): stores the arguments, asserts
that the mode is `"fast"` or `"detailed"`, sets the success and error
response prefixes and `self.sock = None`.  A failed `assert` raises
`AssertionError`, so no instance with an invalid mode is ever produced.
Logger setup (line 47) is I/O glue and not modelled.  The source assertion
message quotes the two mode names. -/
def ClusterDTester.init (server_ip : String) (server_port : Nat)
    (mode : String := "fast") (init_response : String := "+RCLUSTER Version v1.10") :
    Except PyError ClusterDTester :=
  if mode = "fast" ∨ mode = "detailed" then
    .ok { server_ip := server_ip, server_port := server_port, mode := mode,
          init_response := init_response, successPrefix := "+RCLUSTER",
          errorPrefix := "-RCLUSTER", sock := none }
  else
    .error (.assertionError "Invalid mode. Use fast or detailed.")

/-- `establish_connection` (lines 72-80): create a stream socket, set a
10-second timeout, connect.  Any `socket.error` raised inside the `try`
block is re-raised as the module-level `ConnectionError` with a message
naming the server address. -/
def establish_connection (t : ClusterDTester) (env : HandshakeEnv) :
    List Event × Except PyError Unit :=
  match env.connectError with
  | none => ([.settimeout 10, .connect t.server_ip t.server_port], .ok ())
  | some e =>
      ([.settimeout 10, .connect t.server_ip t.server_port],
       .error (.connectionErr ("Failed to connect to " ++ t.server_ip ++ ":" ++
         toString t.server_port ++ ": " ++ e)))

/-- `validate_server_acknowledgment` (lines 82-87): receive up to 1024
bytes, decode as UTF-8, and raise `NoAcknowledgmentError` unless the text
equals `self.init_response` exactly.  A socket-level error from `recv`
itself is not caught here and propagates. -/
def validate_server_acknowledgment (t : ClusterDTester) (received : RecvOutcome) :
    List Event × Except PyError Unit :=
  match received with
  | .fail m => ([.recv 1024], .error (.socketError m))
  | .text s =>
      ([.recv 1024],
       if s = t.init_response then .ok ()
       else .error (.noAcknowledgment ("No acknowledgment from " ++ t.server_ip ++ ":" ++
         toString t.server_port ++ ": " ++ s)))

/-- `establish_and_validate_connection` (lines 89-93): if `self.sock` is
`None`, connect and then validate the banner.  Note that `self.sock` is
assigned on line 92 before validation on line 93, so the handle is stored
even when validation then raises. -/
def establish_and_validate_connection (t : ClusterDTester) (env : HandshakeEnv) :
    List Event × Except PyError Unit × ClusterDTester :=
  match t.sock with
  | some _ => ([], .ok (), t)
  | none =>
      let c := establish_connection t env
      match c.2 with
      | .error e => (c.1, .error e, t)
      | .ok _ =>
          let t1 := { t with sock := some () }
          let v := validate_server_acknowledgment t1 env.bannerRecv
          (c.1 ++ v.1, v.2, t1)

/-- Python `str.startswith`: character-wise prefix test. -/
def pyStartswith (s p : String) : Bool := p.data.isPrefixOf s.data

/-- Python slicing `s[n:]`: drop the first `n` characters. -/
def pyDropChars (s : String) (n : Nat) : String := String.mk (s.data.drop n)

/-- The three ASCII bytes of the literal marker `b"BUF"`. -/
def bufBytes : List Nat := (String.toList "BUF").map Char.toNat

/-- `send_rdf_data` (lines 95-99): read the raw file contents and pass
`b"BUF" + rdf_data` to a single `sock.sendall` call.  A socket-level error
from `sendall` propagates. -/
def send_rdf_data (f : FileEnv) : List Event × Except PyError Unit :=
  match f.sendResult with
  | .ok => ([.sendall (bufBytes ++ f.contents)], .ok ())
  | .fail m => ([.sendall (bufBytes ++ f.contents)], .error (.socketError m))

/-- `process_server_response` (lines 101-110): receive up to 1024 bytes and
classify.  The first branch requires BOTH the success-prefixed response AND
detailed mode; the error branch slices off `len(self.error_prefix + " ")`
characters; everything else raises the unexpected-response error. -/
def process_server_response (t : ClusterDTester) (received : RecvOutcome)
    (file_path : String) : List Event × Except PyError Unit :=
  match received with
  | .fail m => ([.recv 1024], .error (.socketError m))
  | .text server_response =>
      if pyStartswith server_response t.successPrefix && (t.mode == "detailed") then
        ([.recv 1024, .logInfo ("Success for " ++ file_path ++ ": " ++ server_response)],
         .ok ())
      else if pyStartswith server_response t.errorPrefix then
        ([.recv 1024],
         .error (.serverResponse ("Failure for " ++ file_path ++ ": " ++
           pyDropChars server_response (t.errorPrefix ++ " ").length)))
      else
        ([.recv 1024],
         .error (.serverResponse ("Unexpected response for " ++ file_path ++ ": " ++
           server_response)))

/-- The exception classes named in the `except` clause of `send_file`
(line 120): the module-level `ConnectionError`, `NoAcknowledgmentError`
and `ServerResponseError`.  OS-level socket errors are not among them. -/
def caughtBySendFile : PyError → Bool
  | .connectionErr _ => true
  | .noAcknowledgment _ => true
  | .serverResponse _ => true
  | _ => false

/-- `send_file` (lines 112-123): send the file, process the response, and
return `(elapsed, success_flag)`.  Exceptions in `caughtBySendFile` are
logged, printed to stderr and turn into `success_flag = False`; any other
exception propagates.  If `self.sock` is `None`, calling `sendall` on it
raises `AttributeError`. -/
def send_file (t : ClusterDTester) (f : FileEnv) :
    List Event × Except PyError (Rat × Bool) :=
  match t.sock with
  | none => ([], .error (.attributeError "NoneType object has no attribute sendall"))
  | some _ =>
      let s := send_rdf_data f
      match s.2 with
      | .error e =>
          if caughtBySendFile e then
            (s.1 ++ [.logError e.text, .printErr e.text], .ok (f.duration, false))
          else (s.1, .error e)
      | .ok _ =>
          let p := process_server_response t f.recvResult f.path
          match p.2 with
          | .ok _ => (s.1 ++ p.1, .ok (f.duration, true))
          | .error e =>
              if caughtBySendFile e then
                (s.1 ++ p.1 ++ [.logError e.text, .printErr e.text], .ok (f.duration, false))
              else (s.1 ++ p.1, .error e)

/-- The exception classes named in the `except` clause of `replay_xmlnews`
(line 129): the module-level `ConnectionError` and `NoAcknowledgmentError`. -/
def caughtByReplay : PyError → Bool
  | .connectionErr _ => true
  | .noAcknowledgment _ => true
  | _ => false

/-- The per-file log line emitted before each send in detailed mode
(lines 140-141). -/
def sendLogEvents (t : ClusterDTester) (f : FileEnv) : List Event :=
  if t.mode = "detailed" then
    [.logInfo ("Sending " ++ f.path ++ " to " ++ t.server_ip ++ ":" ++
      toString t.server_port)]
  else []

/-- The `for file_path in xml_files` loop of `replay_xmlnews`
(lines 139-147), accumulating `file_times` and `error_count`.  An exception
propagating out of `send_file` aborts the loop (and the run). -/
def runLoop (t : ClusterDTester) : List FileEnv → List Event × Except PyError (List Rat × Nat)
  | [] => ([], .ok ([], 0))
  | f :: fs =>
      let pre := sendLogEvents t f
      let r := send_file t f
      match r.2 with
      | .error e => (pre ++ r.1, .error e)
      | .ok (time_taken, success) =>
          let rest := runLoop t fs
          match rest.2 with
          | .error e => (pre ++ r.1 ++ rest.1, .error e)
          | .ok (times, errs) =>
              (pre ++ r.1 ++ rest.1,
               .ok (if success then time_taken :: times else times,
                    if success then errs else errs + 1))

/-- The summary locals of `replay_xmlnews` (lines 149-157): success count,
error count, total time, and the average — present only when the success
count is positive. -/
structure RunSummary where
  successCount : Nat
  errorCount : Nat
  totalTime : Rat
  averageTime : Option Rat
deriving DecidableEq, Repr

/-- The result of a whole `replay_xmlnews` run: the event trace, the normal
or exceptional outcome, the final tester state, and the summary statistics
(present exactly when the summary lines of lines 149-157 were reached). -/
structure RunResult where
  trace : List Event
  outcome : Except PyError Unit
  final : ClusterDTester
  summary : Option RunSummary
deriving Repr

/-- The `AttributeError` raised by `None.close()`. -/
def noneCloseError : PyError := .attributeError "NoneType object has no attribute close"

/-- `replay_xmlnews` (lines 125-159): establish and validate the connection
(aborting early, with a log, a stderr print and a `self.sock.close()`, when
the module-level `ConnectionError` or `NoAcknowledgmentError` is raised);
then loop over the files; then log the summary, the average line only when
at least one file succeeded; finally `self.sock.close()`.  When
`self.sock` is still `None` at a `close()` call, that call raises
`AttributeError`. -/
def replay_xmlnews (t : ClusterDTester) (env : RunEnv) : RunResult :=
  let h := establish_and_validate_connection t env.handshake
  match h.2.1 with
  | .error e =>
      if caughtByReplay e then
        let msg := "Initial connection failed: " ++ e.text
        let tr := h.1 ++ [.logError msg, .printErr msg]
        match h.2.2.sock with
        | none =>
            { trace := tr, outcome := .error noneCloseError,
              final := h.2.2, summary := none }
        | some _ =>
            { trace := tr ++ [.close], outcome := .ok (),
              final := h.2.2, summary := none }
      else
        { trace := h.1, outcome := .error e, final := h.2.2, summary := none }
  | .ok _ =>
      let t1 := h.2.2
      let L := runLoop t1 env.files
      match L.2 with
      | .error e =>
          { trace := h.1 ++ L.1, outcome := .error e, final := t1, summary := none }
      | .ok (file_times, error_count) =>
          let total_time := file_times.sum
          let success_file_count := file_times.length
          let summaryEvents :=
            [Event.logInfo ("Processed " ++ toString success_file_count ++
              " files with " ++ toString error_count ++ " errors in " ++
              toString total_time ++ " seconds.")] ++
            (if success_file_count > 0 then
              [Event.logInfo ("Average processing time per successful file: " ++
                toString (total_time / (file_times.length : Rat)) ++ " seconds.")]
            else [])
          let summ : RunSummary :=
            { successCount := success_file_count, errorCount := error_count,
              totalTime := total_time,
              averageTime := if success_file_count > 0 then
                some (total_time / (file_times.length : Rat)) else none }
          match t1.sock with
          | none =>
              { trace := h.1 ++ L.1 ++ summaryEvents, outcome := .error noneCloseError,
                final := t1, summary := some summ }
          | some _ =>
              { trace := h.1 ++ L.1 ++ summaryEvents ++ [.close], outcome := .ok (),
                final := t1, summary := some summ }

/-- Whether `send_file` records this file as a success. -/
def fileSucceeds (t : ClusterDTester) (f : FileEnv) : Bool :=
  match (send_file t f).2 with
  | .ok (_, b) => b
  | .error _ => false

/-- The durations of the files that `send_file` records as successes, in
order. -/
def successDurations (t : ClusterDTester) (fs : List FileEnv) : List Rat :=
  (fs.filter (fun f => fileSucceeds t f)).map (fun f => f.duration)

/-- The tester state after the initial handshake step of a run. -/
def afterHandshake (t : ClusterDTester) (env : RunEnv) : ClusterDTester :=
  (establish_and_validate_connection t env.handshake).2.2

/-- The payloads of the `sendall` calls in a trace, in order. -/
def sendallPayloads (tr : List Event) : List (List Nat) :=
  tr.filterMap fun e => match e with | .sendall d => some d | _ => none

/-- The number of `close` calls in a trace. -/
def closeCount (tr : List Event) : Nat :=
  (tr.filter (fun e => e == Event.close)).length

/-- A concrete tester as built by `ClusterDTester.init` with the address
used throughout `src/tests/test_clusterd.py`. -/
def someTester (mode : String) : ClusterDTester :=
  { server_ip := "127.0.0.1", server_port := 12345, mode := mode,
    init_response := "+RCLUSTER Version v1.10",
    successPrefix := "+RCLUSTER", errorPrefix := "-RCLUSTER", sock := none }

/-- The same tester after a successful handshake (`self.sock` set). -/
def connectedTester (mode : String) : ClusterDTester :=
  { someTester mode with sock := some () }

/-- Run environment in which the initial `connect` raises a socket error. -/
def c2Env : RunEnv :=
  { handshake := { connectError := some "Connection refused", bannerRecv := .text "" },
    files := [] }

/-- A file whose `sendall` raises a socket-level timeout. -/
def c3File : FileEnv :=
  { path := "a.xml", contents := [60, 62], duration := 1,
    sendResult := .fail "timed out", recvResult := .text "+RCLUSTER OK" }

/-- Run environment: handshake succeeds, then `c3File` hits a transport
error. -/
def c3Env : RunEnv :=
  { handshake := { connectError := none, bannerRecv := .text "+RCLUSTER Version v1.10" },
    files := [c3File] }

/-- A file whose exchange completes at the transport level but draws an
error-prefixed response. -/
def c3wFile : FileEnv :=
  { path := "b.xml", contents := [60], duration := 2,
    sendResult := .ok, recvResult := .text "-RCLUSTER busy" }

/-- A file whose `sendall` succeeds but whose `recv` raises a socket-level
error. -/
def c3rFile : FileEnv :=
  { path := "c.xml", contents := [60], duration := 1,
    sendResult := .ok, recvResult := .fail "connection reset" }

/-- Run environment: handshake succeeds, then `c3rFile` hits a transport
error on the receive side. -/
def c3rEnv : RunEnv :=
  { handshake := { connectError := none, bannerRecv := .text "+RCLUSTER Version v1.10" },
    files := [c3rFile] }

/-- A file that succeeds, for summary scenarios. -/
def c8FileA : FileEnv :=
  { path := "a.xml", contents := [60], duration := 3,
    sendResult := .ok, recvResult := .text "+RCLUSTER OK" }

/-- A file that is rejected by the server, for summary scenarios. -/
def c8FileB : FileEnv :=
  { path := "b.xml", contents := [61], duration := 5,
    sendResult := .ok, recvResult := .text "-RCLUSTER (100) Service Unavailable" }

/-- Run environment: good banner, one success and one rejected file. -/
def c8Env : RunEnv :=
  { handshake := { connectError := none, bannerRecv := .text "+RCLUSTER Version v1.10" },
    files := [c8FileA, c8FileB] }

/-- The summary produced by running `c8Env` in detailed mode: one success
of duration 3, one error; total 3 seconds, average 3 seconds.  The fields
are written as the unevaluated sum and quotient so that the run result is
syntactically this summary. -/
def c8Summ : RunSummary :=
  { successCount := 1, errorCount := 1, totalTime := List.sum [(3 : Rat)],
    averageTime := some (List.sum [(3 : Rat)] / ((List.length [(3 : Rat)] : Nat) : Rat)) }

/-- Handshake environment: connect succeeds, banner is wrong. -/
def c9Env : HandshakeEnv :=
  { connectError := none, bannerRecv := .text "Wrong Response" }

/-- Every classification of a text response is either success or a
`ServerResponseError`; no other exception can leave
`process_server_response` when `recv` returned text. -/
theorem process_text_shape (t : ClusterDTester) (r fp : String) :
    (process_server_response t (.text r) fp).2 = .ok () ∨
    ∃ m, (process_server_response t (.text r) fp).2 = .error (.serverResponse m) := by
  simp only [process_server_response]
  split
  · exact .inl rfl
  · split
    · exact .inr ⟨_, rfl⟩
    · exact .inr ⟨_, rfl⟩

/-- C1: the claim says a success-prefixed response is classified as Success
in both modes; in the code the success branch requires detailed mode, so in
fast mode the response `+RCLUSTER OK` falls through to the
unexpected-response branch and raises `ServerResponseError`, while detailed
mode returns normally.  This evaluates the code at that failing input. -/
theorem C1_fast_mode_misclassifies_success :
    (process_server_response (someTester "fast") (.text "+RCLUSTER OK") "a.xml").2 =
      .error (.serverResponse "Unexpected response for a.xml: +RCLUSTER OK") ∧
    (process_server_response (someTester "detailed") (.text "+RCLUSTER OK") "a.xml").2 =
      .ok () := ⟨rfl, rfl⟩

/-- C2: the claim says every early-abort path closes the socket exactly
once without further error; when the initial `connect` itself fails,
`self.sock` is still `None`, so the `self.sock.close()` on line 132 raises
`AttributeError` and no close ever happens.  This evaluates the code at
that failing input. -/
theorem C2_close_on_none_after_connect_failure :
    (replay_xmlnews (someTester "fast") c2Env).outcome = .error noneCloseError ∧
    closeCount (replay_xmlnews (someTester "fast") c2Env).trace = 0 := ⟨rfl, rfl⟩

/-- C3 counterexample: a socket-level error during a file's `sendall` or
`recv` is not in the `except` clause of `send_file` (which names only the
module-level `ConnectionError`, `NoAcknowledgmentError` and
`ServerResponseError`), so it propagates out of `send_file` and aborts the
whole run with no summary, contradicting the claim that every transport
fault is file-local.  Shown for a send-side fault (`c3File`) and for a
receive-side fault (`c3rFile`). -/
theorem C3_transport_error_aborts_run :
    ((send_file (connectedTester "fast") c3File).2 = .error (.socketError "timed out") ∧
     (replay_xmlnews (someTester "fast") c3Env).outcome = .error (.socketError "timed out") ∧
     (replay_xmlnews (someTester "fast") c3Env).summary = none) ∧
    ((send_file (connectedTester "fast") c3rFile).2 =
        .error (.socketError "connection reset") ∧
     (replay_xmlnews (someTester "fast") c3rEnv).outcome =
        .error (.socketError "connection reset") ∧
     (replay_xmlnews (someTester "fast") c3rEnv).summary = none) :=
  ⟨⟨rfl, rfl, rfl⟩, ⟨rfl, rfl, rfl⟩⟩

/-- C3 (amended): when a file's exchange completes at the transport level,
any fault is a `ServerResponseError` (server rejection or protocol
violation), caught inside `send_file`: the call returns normally with
`success = false` after logging, and the loop counts one error and
continues; a socket-level transport error during `sendall` or during
`recv`, however, propagates uncaught. -/
theorem C3_per_file_fault_handling (t : ClusterDTester) (f : FileEnv)
    (hsock : t.sock = some ()) :
    (∀ r, f.sendResult = .ok → f.recvResult = .text r →
      ∃ b, (send_file t f).2 = .ok (f.duration, b)) ∧
    (∀ r, f.sendResult = .ok → f.recvResult = .text r →
      (send_file t f).2 = .ok (f.duration, false) →
      ∃ m, Event.logError m ∈ (send_file t f).1) ∧
    (∀ fs ts es, (send_file t f).2 = .ok (f.duration, false) →
      (runLoop t fs).2 = .ok (ts, es) →
      (runLoop t (f :: fs)).2 = .ok (ts, es + 1)) ∧
    (∀ m, f.sendResult = .fail m → (send_file t f).2 = .error (.socketError m)) ∧
    (∀ m, f.sendResult = .ok → f.recvResult = .fail m →
      (send_file t f).2 = .error (.socketError m)) := by
  refine ⟨?_, ?_, ?_, ?_, ?_⟩
  · intro r hs hr
    simp only [send_file, hsock, send_rdf_data, hs, hr]
    rcases process_text_shape t r f.path with h | ⟨m, h⟩ <;>
      simp [h, caughtBySendFile]
  · intro r hs hr hfail
    simp only [send_file, hsock, send_rdf_data, hs, hr] at hfail ⊢
    rcases process_text_shape t r f.path with h | ⟨m, h⟩
    · simp [h] at hfail
    · simp [h, caughtBySendFile]
  · intro fs ts es hsf hloop
    simp only [runLoop, hsf, hloop]
    simp
  · intro m hm
    simp [send_file, hsock, send_rdf_data, hm, caughtBySendFile]
  · intro m hs hm
    simp [send_file, hsock, send_rdf_data, hs, hm, process_server_response,
      caughtBySendFile]

/-- C3 witness: a rejected file at a concrete input is caught and recorded
as a non-success. -/
theorem C3_per_file_fault_handling_witness :
    ∃ b, (send_file (connectedTester "fast") c3wFile).2 = .ok (c3wFile.duration, b) :=
  (C3_per_file_fault_handling (connectedTester "fast") c3wFile rfl).1
    "-RCLUSTER busy" rfl rfl

/-- C4: `validate_server_acknowledgment` succeeds exactly when the received
text equals the configured expected banner under plain string equality, and
on any other text raises `NoAcknowledgmentError`. -/
theorem C4_validate_exact_equality (t : ClusterDTester) (s : String) :
    ((validate_server_acknowledgment t (.text s)).2 = .ok () ↔ s = t.init_response) ∧
    (s ≠ t.init_response →
      (validate_server_acknowledgment t (.text s)).2 =
        .error (.noAcknowledgment ("No acknowledgment from " ++ t.server_ip ++ ":" ++
          toString t.server_port ++ ": " ++ s))) := by
  simp only [validate_server_acknowledgment]
  by_cases h : s = t.init_response <;> simp [h]

/-- C4 witness: the wrong banner of the test suite is rejected. -/
theorem C4_validate_exact_equality_witness :
    (validate_server_acknowledgment (someTester "fast") (.text "Wrong Response")).2 =
      .error (.noAcknowledgment ("No acknowledgment from " ++
        (someTester "fast").server_ip ++ ":" ++
        toString (someTester "fast").server_port ++ ": " ++ "Wrong Response")) :=
  (C4_validate_exact_equality (someTester "fast") "Wrong Response").2 (by decide)

/-- `sendallPayloads` distributes over trace concatenation. -/
theorem sendallPayloads_append (a b : List Event) :
    sendallPayloads (a ++ b) = sendallPayloads a ++ sendallPayloads b := by
  simp [sendallPayloads]

/-- A `sendall` at the head of a trace contributes its payload. -/
theorem sendallPayloads_cons_sendall (d : List Nat) (tr : List Event) :
    sendallPayloads (.sendall d :: tr) = d :: sendallPayloads tr := by
  simp [sendallPayloads]

/-- A log line contributes no payload. -/
theorem sendallPayloads_cons_logError (m : String) (tr : List Event) :
    sendallPayloads (.logError m :: tr) = sendallPayloads tr := by
  simp [sendallPayloads]

/-- A stderr print contributes no payload. -/
theorem sendallPayloads_cons_printErr (m : String) (tr : List Event) :
    sendallPayloads (.printErr m :: tr) = sendallPayloads tr := by
  simp [sendallPayloads]

/-- The empty trace has no payloads. -/
theorem sendallPayloads_nil : sendallPayloads [] = [] := rfl

/-- `process_server_response` performs no `sendall` call. -/
theorem sendallPayloads_process (t : ClusterDTester) (rc : RecvOutcome) (fp : String) :
    sendallPayloads (process_server_response t rc fp).1 = [] := by
  cases rc with
  | fail m => simp [process_server_response, sendallPayloads]
  | text s =>
      simp only [process_server_response]
      split
      · rfl
      · split <;> rfl

/-- C5: during a file exchange, the transport sees exactly one `sendall`
call whose payload is the three ASCII bytes of `"BUF"` followed by the raw
file contents, byte for byte. -/
theorem C5_wire_bytes (t : ClusterDTester) (f : FileEnv) (hsock : t.sock = some ()) :
    sendallPayloads (send_file t f).1 = [bufBytes ++ f.contents] := by
  simp only [send_file, hsock]
  cases hs : f.sendResult with
  | fail m =>
      simp only [send_rdf_data, hs, caughtBySendFile]
      rfl
  | ok =>
      simp only [send_rdf_data, hs]
      rcases hp : (process_server_response t f.recvResult f.path).2 with e | u
      · split <;> (try split) <;>
          simp_all [sendallPayloads_append, sendallPayloads_process,
            sendallPayloads_cons_sendall, sendallPayloads_cons_logError,
            sendallPayloads_cons_printErr, sendallPayloads_nil]
      · simp [sendallPayloads_append, sendallPayloads_process,
          sendallPayloads_cons_sendall, sendallPayloads_nil]

/-- C5 witness: the wire bytes for a concrete two-byte file. -/
theorem C5_wire_bytes_witness :
    sendallPayloads (send_file (connectedTester "fast") c3wFile).1 =
      [bufBytes ++ c3wFile.contents] :=
  C5_wire_bytes (connectedTester "fast") c3wFile rfl

/-- C6: a response that starts with the error prefix (and not with the
success prefix) is classified as a server rejection whose detail is exactly
the response text with the characters of the error prefix plus one space
removed. -/
theorem C6_error_response_detail (t : ClusterDTester) (fp resp : String)
    (he : t.errorPrefix = "-RCLUSTER")
    (h1 : pyStartswith resp t.errorPrefix = true)
    (h2 : pyStartswith resp t.successPrefix = false) :
    (process_server_response t (.text resp) fp).2 =
      .error (.serverResponse ("Failure for " ++ fp ++ ": " ++
        pyDropChars resp (String.length "-RCLUSTER "))) := by
  rw [he] at h1
  simp [process_server_response, he, h1, h2]

/-- C6 witness: the end-to-end scenario C response, with its extracted
detail. -/
theorem C6_error_response_detail_witness :
    (process_server_response (connectedTester "fast")
        (.text "-RCLUSTER (100) Service Unavailable") "story.xml").2 =
      .error (.serverResponse ("Failure for " ++ "story.xml" ++ ": " ++
        pyDropChars "-RCLUSTER (100) Service Unavailable" (String.length "-RCLUSTER "))) ∧
    pyDropChars "-RCLUSTER (100) Service Unavailable" (String.length "-RCLUSTER ") =
      "(100) Service Unavailable" :=
  ⟨C6_error_response_detail (connectedTester "fast") "story.xml"
      "-RCLUSTER (100) Service Unavailable" rfl (by decide) (by decide), rfl⟩

/-- C7: a response starting with neither prefix always raises the
unexpected-response `ServerResponseError` carrying the raw text, in every
mode; it is never classified as success. -/
theorem C7_unknown_response_is_violation (t : ClusterDTester) (fp resp : String)
    (h1 : pyStartswith resp t.successPrefix = false)
    (h2 : pyStartswith resp t.errorPrefix = false) :
    (process_server_response t (.text resp) fp).2 =
      .error (.serverResponse ("Unexpected response for " ++ fp ++ ": " ++ resp)) ∧
    (process_server_response t (.text resp) fp).2 ≠ .ok () := by
  simp [process_server_response, h1, h2]

/-- C7 witness: a garbage response at a concrete input. -/
theorem C7_unknown_response_is_violation_witness :
    (process_server_response (someTester "fast") (.text "GARBAGE") "a.xml").2 =
      .error (.serverResponse ("Unexpected response for " ++ "a.xml" ++ ": " ++ "GARBAGE")) ∧
    (process_server_response (someTester "fast") (.text "GARBAGE") "a.xml").2 ≠ .ok () :=
  C7_unknown_response_is_violation (someTester "fast") "a.xml" "GARBAGE"
    (by decide) (by decide)

/-- When `send_file` returns normally, the elapsed value it returns is the
duration of that file attempt and the flag is its success verdict. -/
theorem send_file_ok_pair (t : ClusterDTester) (f : FileEnv) (p : Rat × Bool)
    (h : (send_file t f).2 = .ok p) : p = (f.duration, fileSucceeds t f) := by
  unfold fileSucceeds
  rw [h]
  simp only [send_file] at h
  split at h
  · simp at h
  · split at h
    · split at h
      · simp only [Except.ok.injEq] at h
        simp [h.symm]
      · simp at h
    · split at h
      · simp only [Except.ok.injEq] at h
        simp [h.symm]
      · split at h
        · simp only [Except.ok.injEq] at h
          simp [h.symm]
        · simp at h

/-- When the replay loop completes, its accumulated `file_times` list is
exactly the durations of the files whose `send_file` succeeded, in order. -/
theorem runLoop_ok_times (t : ClusterDTester) (fs : List FileEnv) (ts : List Rat) (es : Nat)
    (h : (runLoop t fs).2 = .ok (ts, es)) : ts = successDurations t fs := by
  induction fs generalizing ts es with
  | nil =>
      simp [runLoop] at h
      simp [successDurations, h.1]
  | cons f fs ih =>
      rcases hsf : (send_file t f).2 with e | p
      · simp [runLoop, hsf] at h
      · obtain ⟨d, b⟩ := p
        have hp := send_file_ok_pair t f (d, b) hsf
        rcases hrl : (runLoop t fs).2 with e2 | q
        · simp [runLoop, hsf, hrl] at h
        · obtain ⟨times, errs⟩ := q
          simp only [runLoop, hsf, hrl] at h
          simp only [Except.ok.injEq, Prod.mk.injEq] at h
          obtain ⟨hts, hes⟩ := h
          subst hts
          injection hp with hd hbs
          subst hd
          subst hbs
          have ht := ih times errs hrl
          cases hfs : fileSucceeds t f <;>
            simp [successDurations, List.filter_cons, hfs, ht]

/-- C8: whenever a run reaches its summary, the total elapsed time is the
sum of the durations of the successful transfers, the success count is
their number, and the average is total divided by success count, present
exactly when the success count is positive (never a division by zero). -/
theorem C8_summary_statistics (t : ClusterDTester) (env : RunEnv) (s : RunSummary)
    (h : (replay_xmlnews t env).summary = some s) :
    s.totalTime = (successDurations (afterHandshake t env) env.files).sum ∧
    s.successCount = (successDurations (afterHandshake t env) env.files).length ∧
    (0 < s.successCount → s.averageTime = some (s.totalTime / (s.successCount : Rat))) ∧
    (s.successCount = 0 → s.averageTime = none) := by
  unfold afterHandshake
  rcases hh : (establish_and_validate_connection t env.handshake).2.1 with e | u
  · simp only [replay_xmlnews, hh] at h
    split at h <;> try split at h
    all_goals simp at h
  · rcases hrl : (runLoop (establish_and_validate_connection t env.handshake).2.2 env.files).2
      with e | q
    · simp [replay_xmlnews, hh, hrl] at h
    · obtain ⟨file_times, error_count⟩ := q
      have hts := runLoop_ok_times ((establish_and_validate_connection t env.handshake).2.2)
        env.files file_times error_count hrl
      simp only [replay_xmlnews, hh, hrl] at h
      split at h <;>
        simp only [Option.some.injEq] at h <;>
        subst h <;>
        refine ⟨by rw [hts], by rw [hts], ?_, ?_⟩ <;>
        simp only []
      · intro hpos
        rw [if_pos hpos]
      · intro hzero
        rw [if_neg]
        omega
      · intro hpos
        rw [if_pos hpos]
      · intro hzero
        rw [if_neg]
        omega

/-- C8 witness: a concrete run with one success (3 seconds) and one
rejection yields total 3, success count 1, and average 3. -/
theorem C8_summary_statistics_witness :
    c8Summ.totalTime = (successDurations (afterHandshake (someTester "detailed") c8Env) c8Env.files).sum ∧
    c8Summ.successCount = (successDurations (afterHandshake (someTester "detailed") c8Env) c8Env.files).length ∧
    (0 < c8Summ.successCount → c8Summ.averageTime =
      some (c8Summ.totalTime / (c8Summ.successCount : Rat))) ∧
    (c8Summ.successCount = 0 → c8Summ.averageTime = none) :=
  C8_summary_statistics (someTester "detailed") c8Env c8Summ rfl

/-- C9 counterexample: connect succeeds but the banner is wrong, so
`establish_and_validate_connection` raises `NoAcknowledgmentError` — yet
`self.sock` was already assigned on line 92, so the session holds a
connection handle after a failed handshake, contradicting the claimed
invariant. -/
theorem C9_sock_present_after_failed_validation :
    (establish_and_validate_connection (someTester "fast") c9Env).2.1 =
      .error (.noAcknowledgment "No acknowledgment from 127.0.0.1:12345: Wrong Response") ∧
    (establish_and_validate_connection (someTester "fast") c9Env).2.2.sock = some () :=
  ⟨rfl, rfl⟩

/-- C9 (amended): starting from a fresh session (`self.sock = None`), the
connection handle is present after `establish_and_validate_connection`
exactly when the `connect` call itself succeeded — regardless of whether
the subsequent banner validation succeeded. -/
theorem C9_sock_iff_connect (t : ClusterDTester) (env : HandshakeEnv)
    (h : t.sock = none) :
    (establish_and_validate_connection t env).2.2.sock = some () ↔
      env.connectError = none := by
  simp only [establish_and_validate_connection, h]
  cases hc : env.connectError with
  | none => simp [establish_connection, hc]
  | some e => simp [establish_connection, hc, h]

/-- C9 witness: at the concrete wrong-banner environment the handle is
present because connect succeeded. -/
theorem C9_sock_iff_connect_witness :
    (establish_and_validate_connection (someTester "fast") c9Env).2.2.sock = some () :=
  (C9_sock_iff_connect (someTester "fast") c9Env rfl).mpr rfl

/-- C10: the constructor returns a session for exactly the modes `"fast"`
and `"detailed"` and raises `AssertionError` for every other mode string,
so no session with an invalid mode ever exists. -/
theorem C10_constructor_mode_assertion (ip : String) (port : Nat) (mode ir : String) :
    (mode = "fast" ∨ mode = "detailed" →
      ClusterDTester.init ip port mode ir =
        .ok { server_ip := ip, server_port := port, mode := mode, init_response := ir,
              successPrefix := "+RCLUSTER", errorPrefix := "-RCLUSTER", sock := none }) ∧
    (¬(mode = "fast" ∨ mode = "detailed") →
      ClusterDTester.init ip port mode ir =
        .error (.assertionError "Invalid mode. Use fast or detailed.")) := by
  constructor <;> intro h <;> simp [ClusterDTester.init, h]

/-- C10 witness: mode `"fast"` constructs the test-suite session and mode
`"bogus"` is rejected by the assertion. -/
theorem C10_constructor_mode_assertion_witness :
    ClusterDTester.init "127.0.0.1" 12345 "fast" "+RCLUSTER Version v1.10" =
      .ok (someTester "fast") ∧
    ClusterDTester.init "127.0.0.1" 12345 "bogus" "+RCLUSTER Version v1.10" =
      .error (.assertionError "Invalid mode. Use fast or detailed.") := by
  constructor
  · exact (C10_constructor_mode_assertion "127.0.0.1" 12345 "fast"
      "+RCLUSTER Version v1.10").1 (Or.inl rfl)
  · exact (C10_constructor_mode_assertion "127.0.0.1" 12345 "bogus"
      "+RCLUSTER Version v1.10").2 (by decide)
